import Mathlib

/-!
Verification of the teamsport-terminal-backend reporting and lifecycle logic.

The embedding below translates the Express handlers of src/server.js (the
current revision) and, where claims reference it, the earlier variant
src/unnamed/part_002. JavaScript values are embedded as follows: integer
amounts in minor units become Nat, epoch timestamps become Int, possibly
missing request-body or metadata fields become Option String (none models a
field that is absent; the JavaScript falsy check on a string also treats the
empty string as missing, which the helper truthy captures). Date strings in a
request body are embedded by the millisecond epoch value that new Date(s)
followed by getTime() yields on them; none models a missing or empty field.
-/

/-- Attribution metadata carried on a ledger record, written by
POST /create_payment_intent (src/server.js lines 58-61) and read by the
reporting filter (lines 120-122). Keys can be absent on records the ledger
returns, hence Option. -/
structure Metadata where
  terminal_label : Option String
  staff_name : Option String
deriving Repr, DecidableEq

/-- A ledger transaction record, the shape of a Stripe PaymentIntent as the
handlers read it: amount (minor units), currency, status string, created
epoch seconds, attribution metadata, and the nested reader id of the first
charge (src/unnamed/part_000 lines 236-239 read it; it may be absent). -/
structure PaymentIntent where
  id : String
  amount : Nat
  currency : String
  status : String
  created : Int
  metadata : Metadata
  readerId : Option String
deriving Repr, DecidableEq

/-- The created range parameter of the ledger list call
(src/server.js lines 110-113). -/
structure CreatedFilter where
  gte : Int
  lte : Int
deriving Repr, DecidableEq

/-- Errors the handlers return: validation is the HTTP 400 branch, upstream
the catch-all HTTP 500 branch. -/
inductive ApiError where
  | validation (msg : String)
  | upstream (msg : String)
deriving Repr, DecidableEq

/-- JavaScript truthiness of a possibly missing string field: absent and
empty strings are falsy. -/
def truthy (o : Option String) : Bool :=
  match o with
  | none => false
  | some s => s ≠ ""

/-- Whether a record falls in the inclusive created window. -/
def inCreatedRange (c : CreatedFilter) (r : PaymentIntent) : Bool :=
  c.gte ≤ r.created && r.created ≤ c.lte

/-- Modelled from the spec: the external Ledger Client listTransactions
contract (spec sections 4.3 and 6), which src/ only calls. A single list call
returns the ledger records whose created time lies in the inclusive window,
capped at the requested page-size ceiling; db is the full ledger content. -/
def stripeList (db : List PaymentIntent) (created : CreatedFilter)
    (limit : Nat) : List PaymentIntent :=
  (db.filter (inCreatedRange created)).take limit

/-- The filter of POST /transactions_for_terminal in src/server.js
(lines 120-122): status equal to succeeded and exact equality of the
staff_name metadata against the request staff_name. -/
def matchesStaff (staff : String) (r : PaymentIntent) : Bool :=
  r.status == "succeeded" && r.metadata.staff_name == some staff

/-- The reduce on line 124 of src/server.js: left fold of amount with
initial accumulator 0. -/
def reportTotal (l : List PaymentIntent) : Nat :=
  l.foldl (fun sum r => sum + r.amount) 0

/-- The currency expression on line 128 of src/server.js: currency of the
first filtered record, with the JavaScript or-fallback to eur when the list
is empty or that currency is the empty string. -/
def currencyOrFallback (l : List PaymentIntent) : String :=
  match l.head? with
  | some r => if r.currency = "" then "eur" else r.currency
  | none => "eur"

/-- The response body of POST /transactions_for_terminal
(src/server.js lines 126-131). -/
structure Summary where
  total : Nat
  currency : String
  count : Nat
  transactions : List PaymentIntent
deriving Repr, DecidableEq

/-- The keys written into the reporting response object, in source order
(src/server.js lines 126-131). -/
def summaryFields : List String :=
  ["total", "currency", "count", "transactions"]

/-- Builds the response object of src/server.js lines 126-131 from the
filtered list. -/
def summarize (filtered : List PaymentIntent) : Summary :=
  { total := reportTotal filtered
  , currency := currencyOrFallback filtered
  , count := filtered.length
  , transactions := filtered }

/-- Request body of POST /transactions_for_terminal in src/server.js
(line 103 destructures start, end, staff_name). start and end_ are the
millisecond epoch values of the supplied date strings, none when the field
is missing or empty. terminal_label may be present in the body but the
handler never destructures it. -/
structure ReportRequest where
  start : Option Int
  end_ : Option Int
  staff_name : Option String
  terminal_label : Option String
deriving Repr, DecidableEq

/-- POST /transactions_for_terminal of src/server.js (lines 100-135):
reject when start, end or staff_name is missing (line 106), convert the
dates with floor division of milliseconds by 1000 (lines 110-113), issue one
list call with limit 500 (lines 115-118), filter (lines 120-122), and
respond with total, currency, count and transactions (lines 124-131). -/
def transactionsForTerminal (db : List PaymentIntent)
    (req : ReportRequest) : Except ApiError Summary :=
  match req.start, req.end_, req.staff_name with
  | some startMs, some endMs, some staff =>
    if staff = "" then
      .error (.validation "Missing start, end, or staff_name")
    else
      let created : CreatedFilter :=
        { gte := startMs.fdiv 1000, lte := endMs.fdiv 1000 }
      let page := stripeList db created 500
      .ok (summarize (page.filter (matchesStaff staff)))
  | _, _, _ => .error (.validation "Missing start, end, or staff_name")

/-- Request body of POST /transactions_for_terminal in src/unnamed/part_002
(line 102 destructures start, end, terminal_id, terminal_label). -/
structure ReportRequest002 where
  start : Option Int
  end_ : Option Int
  terminal_id : Option String
  terminal_label : Option String
deriving Repr, DecidableEq

/-- The filter of src/unnamed/part_002 lines 146-152: when terminal_label is
truthy, status succeeded and exact terminal_label metadata equality;
otherwise the fallback keeps every succeeded record. -/
def part002Matches (terminal_label : Option String)
    (r : PaymentIntent) : Bool :=
  if truthy terminal_label then
    r.status == "succeeded" &&
      r.metadata.terminal_label == terminal_label
  else
    r.status == "succeeded"

/-- POST /transactions_for_terminal of src/unnamed/part_002 (lines 100-169):
reject when start or end is missing or both terminal_id and terminal_label
are falsy (line 107); otherwise convert, issue one list call with limit 500,
filter with part002Matches and respond as summarize does. -/
def transactionsForTerminal002 (db : List PaymentIntent)
    (req : ReportRequest002) : Except ApiError Summary :=
  match req.start, req.end_ with
  | some startMs, some endMs =>
    if !truthy req.terminal_id && !truthy req.terminal_label then
      .error (.validation "Missing start, end, or terminal_id or terminal_label")
    else
      let created : CreatedFilter :=
        { gte := startMs.fdiv 1000, lte := endMs.fdiv 1000 }
      let page := stripeList db created 500
      .ok (summarize (page.filter (part002Matches req.terminal_label)))
  | _, _ => .error (.validation "Missing start, end, or terminal_id or terminal_label")

/-- The JavaScript or-default of a possibly missing string: the field when
truthy, the default otherwise. -/
def orDefault (v : Option String) (d : String) : String :=
  match v with
  | some s => if s = "" then d else s
  | none => d

/-- The metadata object written by POST /create_payment_intent
(src/server.js lines 58-61): terminal_label defaults to the empty string and
staff_name to Unknown via the JavaScript or-operator. -/
def createMetadata (terminal_label staff_name : Option String) : Metadata :=
  { terminal_label := some (orDefault terminal_label "")
  , staff_name := some (orDefault staff_name "Unknown") }

/-- The ledger update call POST /update_payment_intent would issue
(src/server.js lines 90-92). -/
structure UpdateCall where
  payment_intent_id : String
  receipt_email : String
deriving Repr, DecidableEq

/-- POST /update_payment_intent of src/server.js (lines 84-97): when either
field is falsy, return the 400 validation error before any ledger call;
otherwise issue the update call. The returned UpdateCall value models the
single ledger call the success path issues. -/
def updatePaymentIntent (payment_intent_id receipt_email : Option String) :
    Except ApiError UpdateCall :=
  match payment_intent_id, receipt_email with
  | some p, some e =>
    if p = "" || e = "" then
      .error (.validation "Missing payment_intent_id or receipt_email")
    else
      .ok { payment_intent_id := p, receipt_email := e }
  | _, _ => .error (.validation "Missing payment_intent_id or receipt_email")

/-- An identity selector as the spec words it (section 4.2): zero or more of
terminalLabel, operatorName, readerId. -/
structure Selector where
  terminalLabel : Option String
  operatorName : Option String
  readerId : Option String
deriving Repr, DecidableEq

/-- Modelled from the spec, for refinement comparison with the code filters:
the prioritized strategy list of section 4.2. Strategy 1 applies when both
the selector and the record carry terminalLabel; else strategy 2 applies
when both carry operatorName; else strategy 3 applies when the selector
carries readerId; else rule 4 accepts when no selector field is supplied. -/
def specStrategyMatches (sel : Selector) (r : PaymentIntent) : Bool :=
  match sel.terminalLabel, r.metadata.terminal_label with
  | some tl, some rtl => tl == rtl
  | _, _ =>
    match sel.operatorName, r.metadata.staff_name with
    | some op, some rop => op == rop
    | _, _ =>
      match sel.readerId with
      | some rid =>
        match r.readerId with
        | some rr => rid == rr
        | none => false
      | none =>
        sel.terminalLabel == none && sel.operatorName == none

/-- Modelled from the spec, for refinement comparison with the code filters:
full membership per section 4.2, status succeeded and the applicable
strategy accepting. -/
def specPolicyMatches (sel : Selector) (r : PaymentIntent) : Bool :=
  r.status == "succeeded" && specStrategyMatches sel r

/-! ## Helper lemmas -/

theorem foldl_add_amount (l : List PaymentIntent) (acc : Nat) :
    l.foldl (fun sum r => sum + r.amount) acc =
      acc + (l.map (fun r => r.amount)).sum := by
  induction l generalizing acc with
  | nil => simp
  | cons a t ih => simp [List.foldl_cons, ih, Nat.add_assoc]

theorem reportTotal_eq_sum (l : List PaymentIntent) :
    reportTotal l = (l.map (fun r => r.amount)).sum := by
  simpa [reportTotal] using foldl_add_amount l 0

theorem transactionsForTerminal_ok (db : List PaymentIntent)
    (req : ReportRequest) (s : Summary)
    (h : transactionsForTerminal db req = .ok s) :
    ∃ startMs endMs staff,
      req.start = some startMs ∧ req.end_ = some endMs ∧
      req.staff_name = some staff ∧ staff ≠ "" ∧
      s = summarize
        ((stripeList db
            { gte := startMs.fdiv 1000, lte := endMs.fdiv 1000 } 500).filter
          (matchesStaff staff)) := by
  unfold transactionsForTerminal at h
  match hs : req.start, he : req.end_, hn : req.staff_name with
  | some startMs, some endMs, some staff =>
    rw [hs, he, hn] at h
    by_cases hemp : staff = ""
    · simp [hemp] at h
    · refine ⟨startMs, endMs, staff, rfl, rfl, rfl, hemp, ?_⟩
      simp [hemp] at h
      exact h.symm
  | none, _, _ => rw [hs] at h; simp at h
  | some _, none, _ => rw [hs, he] at h; simp at h
  | some _, some _, none => rw [hs, he, hn] at h; simp at h

theorem transactionsForTerminal002_ok (db : List PaymentIntent)
    (req : ReportRequest002) (s : Summary)
    (h : transactionsForTerminal002 db req = .ok s) :
    ∃ startMs endMs,
      req.start = some startMs ∧ req.end_ = some endMs ∧
      (truthy req.terminal_id || truthy req.terminal_label) = true ∧
      s = summarize
        ((stripeList db
            { gte := startMs.fdiv 1000, lte := endMs.fdiv 1000 } 500).filter
          (part002Matches req.terminal_label)) := by
  unfold transactionsForTerminal002 at h
  match hs : req.start, he : req.end_ with
  | some startMs, some endMs =>
    rw [hs, he] at h
    by_cases ht : (!truthy req.terminal_id && !truthy req.terminal_label) = true
    · simp [ht] at h
    · refine ⟨startMs, endMs, rfl, rfl, ?_, ?_⟩
      · revert ht
        cases truthy req.terminal_id <;> cases truthy req.terminal_label <;> simp
      · simp [ht] at h
        exact h.symm
  | none, _ => rw [hs] at h; simp at h
  | some _, none => rw [hs, he] at h; simp at h

theorem matchesStaff_status (staff : String) (r : PaymentIntent)
    (h : matchesStaff staff r = true) : r.status = "succeeded" := by
  have := (Bool.and_eq_true _ _).mp h
  exact beq_iff_eq.mp this.1

theorem part002Matches_status (tl : Option String) (r : PaymentIntent)
    (h : part002Matches tl r = true) : r.status = "succeeded" := by
  unfold part002Matches at h
  by_cases ht : truthy tl = true
  · rw [if_pos ht] at h
    exact beq_iff_eq.mp ((Bool.and_eq_true _ _).mp h).1
  · rw [if_neg ht] at h
    exact beq_iff_eq.mp h

/-! ## Claims -/

/-- C1: for every reporting request and ledger content, a record whose
status is not succeeded never appears in the summary: every returned
transaction has status succeeded, count is exactly the length of the
returned transactions, and total is exactly the sum of their amounts, in
both the current handler (src/server.js) and the part_002 variant,
whatever identity selector the request carries. -/
theorem c1_nonsucceeded_never_reported :
    (∀ (db : List PaymentIntent) (req : ReportRequest) (s : Summary),
      transactionsForTerminal db req = .ok s →
        (∀ r ∈ s.transactions, r.status = "succeeded") ∧
        s.count = s.transactions.length ∧
        s.total = (s.transactions.map (fun r => r.amount)).sum) ∧
    (∀ (db : List PaymentIntent) (req : ReportRequest002) (s : Summary),
      transactionsForTerminal002 db req = .ok s →
        (∀ r ∈ s.transactions, r.status = "succeeded") ∧
        s.count = s.transactions.length ∧
        s.total = (s.transactions.map (fun r => r.amount)).sum) := by
  constructor
  · intro db req s h
    obtain ⟨a, b, staff, _, _, _, _, hs⟩ := transactionsForTerminal_ok db req s h
    subst hs
    refine ⟨?_, rfl, reportTotal_eq_sum _⟩
    intro r hr
    exact matchesStaff_status staff r (List.of_mem_filter hr)
  · intro db req s h
    obtain ⟨a, b, _, _, _, hs⟩ := transactionsForTerminal002_ok db req s h
    subst hs
    refine ⟨?_, rfl, reportTotal_eq_sum _⟩
    intro r hr
    exact part002Matches_status req.terminal_label r (List.of_mem_filter hr)

/-- Witness for C1 at a concrete request, ledger and summary. -/
theorem c1_nonsucceeded_never_reported_witness :
    (∀ r ∈ (Summary.mk 0 "eur" 0 []).transactions, r.status = "succeeded") ∧
    (Summary.mk 0 "eur" 0 []).count =
      (Summary.mk 0 "eur" 0 []).transactions.length ∧
    (Summary.mk 0 "eur" 0 []).total =
      ((Summary.mk 0 "eur" 0 []).transactions.map (fun r => r.amount)).sum :=
  c1_nonsucceeded_never_reported.1
    [⟨"pi_1", 100, "eur", "pending", 5, ⟨some "T", some "A"⟩, none⟩]
    ⟨some 0, some 10000, some "A", none⟩ ⟨0, "eur", 0, []⟩ rfl

/-- C6: in every successful reporting response, an empty matching set gives
total 0 and the configured fallback currency eur, and a nonempty matching
set takes its currency from the first matching record in ledger-returned
order (under the data-model invariant that a currency code is nonempty). -/
theorem c6_currency_fallback (db : List PaymentIntent) (req : ReportRequest)
    (s : Summary) (h : transactionsForTerminal db req = .ok s) :
    (s.count = 0 → s.total = 0 ∧ s.currency = "eur") ∧
    (∀ r rest, s.transactions = r :: rest → r.currency ≠ "" →
      s.currency = r.currency) := by
  obtain ⟨a, b, staff, _, _, _, _, hs⟩ := transactionsForTerminal_ok db req s h
  subst hs
  set filtered :=
    ((stripeList db { gte := a.fdiv 1000, lte := b.fdiv 1000 } 500).filter
      (matchesStaff staff)) with hf
  constructor
  · intro hcount
    have hnil : filtered = [] := List.length_eq_zero.mp hcount
    simp [summarize, hnil, reportTotal, currencyOrFallback]
  · intro r rest htr hcur
    have : filtered = r :: rest := htr
    simp [summarize, this, currencyOrFallback, hcur]

/-- Witness for C6 at a concrete ledger and request. -/
theorem c6_currency_fallback_witness :
    ((Summary.mk 250 "usd" 1
        [⟨"pi_3", 250, "usd", "succeeded", 5, ⟨some "T", some "A"⟩, none⟩]).count = 0 →
      (Summary.mk 250 "usd" 1
        [⟨"pi_3", 250, "usd", "succeeded", 5, ⟨some "T", some "A"⟩, none⟩]).total = 0 ∧
      (Summary.mk 250 "usd" 1
        [⟨"pi_3", 250, "usd", "succeeded", 5, ⟨some "T", some "A"⟩, none⟩]).currency = "eur") ∧
    (∀ r rest,
      (Summary.mk 250 "usd" 1
        [⟨"pi_3", 250, "usd", "succeeded", 5, ⟨some "T", some "A"⟩, none⟩]).transactions =
        r :: rest → r.currency ≠ "" →
      (Summary.mk 250 "usd" 1
        [⟨"pi_3", 250, "usd", "succeeded", 5, ⟨some "T", some "A"⟩, none⟩]).currency =
        r.currency) :=
  c6_currency_fallback
    [⟨"pi_3", 250, "usd", "succeeded", 5, ⟨some "T", some "A"⟩, none⟩]
    ⟨some 0, some 10000, some "A", none⟩
    (Summary.mk 250 "usd" 1
      [⟨"pi_3", 250, "usd", "succeeded", 5, ⟨some "T", some "A"⟩, none⟩]) rfl

/-- C7: the aggregation is order-independent: permuting the input record
list changes neither the computed total nor the count, for any selector. -/
theorem c7_total_count_perm_invariant (staff : String)
    (l₁ l₂ : List PaymentIntent) (h : l₁.Perm l₂) :
    reportTotal (l₁.filter (matchesStaff staff)) =
      reportTotal (l₂.filter (matchesStaff staff)) ∧
    (l₁.filter (matchesStaff staff)).length =
      (l₂.filter (matchesStaff staff)).length := by
  have hp : (l₁.filter (matchesStaff staff)).Perm
      (l₂.filter (matchesStaff staff)) := h.filter _
  constructor
  · rw [reportTotal_eq_sum, reportTotal_eq_sum]
    exact (hp.map _).sum_eq
  · exact hp.length_eq

/-- Witness for C7 on a concrete two-record permutation. -/
theorem c7_total_count_perm_invariant_witness :
    reportTotal
        ([⟨"a", 100, "eur", "succeeded", 1, ⟨none, some "A"⟩, none⟩,
          ⟨"b", 200, "eur", "succeeded", 2, ⟨none, some "A"⟩, none⟩].filter
          (matchesStaff "A")) =
      reportTotal
        ([⟨"b", 200, "eur", "succeeded", 2, ⟨none, some "A"⟩, none⟩,
          ⟨"a", 100, "eur", "succeeded", 1, ⟨none, some "A"⟩, none⟩].filter
          (matchesStaff "A")) ∧
    ([⟨"a", 100, "eur", "succeeded", 1, ⟨none, some "A"⟩, none⟩,
      ⟨"b", 200, "eur", "succeeded", 2, ⟨none, some "A"⟩, none⟩].filter
      (matchesStaff "A")).length =
    ([⟨"b", 200, "eur", "succeeded", 2, ⟨none, some "A"⟩, none⟩,
      ⟨"a", 100, "eur", "succeeded", 1, ⟨none, some "A"⟩, none⟩].filter
      (matchesStaff "A")).length :=
  c7_total_count_perm_invariant "A" _ _
    (List.Perm.swap
      (⟨"b", 200, "eur", "succeeded", 2, ⟨none, some "A"⟩, none⟩ : PaymentIntent)
      (⟨"a", 100, "eur", "succeeded", 1, ⟨none, some "A"⟩, none⟩ : PaymentIntent) [])

/-- C8: POST /update_payment_intent rejects a missing or empty
payment_intent_id or receipt_email with the 400 validation error, before
any ledger update call is issued (the success value modelling the ledger
call is never produced). -/
theorem c8_update_requires_fields (pid email : Option String)
    (h : truthy pid = false ∨ truthy email = false) :
    updatePaymentIntent pid email =
      .error (.validation "Missing payment_intent_id or receipt_email") := by
  match hp : pid, he : email with
  | none, _ => rfl
  | some p, none => rfl
  | some p, some e =>
    rcases h with h | h
    · have : p = "" := by
        by_contra hc
        simp [truthy, hc] at h
      simp [updatePaymentIntent, this]
    · have : e = "" := by
        by_contra hc
        simp [truthy, hc] at h
      simp [updatePaymentIntent, this]

/-- Witness for C8 at a concrete empty receipt_email. -/
theorem c8_update_requires_fields_witness :
    updatePaymentIntent (some "pi_9") (some "") =
      .error (.validation "Missing payment_intent_id or receipt_email") :=
  c8_update_requires_fields (some "pi_9") (some "") (Or.inr (by decide))

/-- C9: create always writes both attribution metadata keys, substituting
Unknown for a missing or empty staff_name and the empty string for a missing
or empty terminal_label; consequently a succeeded record created without an
operator identity matches a reporting request whose staff_name selector is
exactly Unknown. -/
theorem c9_metadata_defaults (tl staff : Option String) :
    ((createMetadata tl staff).terminal_label ≠ none ∧
      (createMetadata tl staff).staff_name ≠ none) ∧
    (truthy staff = false →
      (createMetadata tl staff).staff_name = some "Unknown") ∧
    (truthy tl = false →
      (createMetadata tl staff).terminal_label = some "") ∧
    (∀ r : PaymentIntent, r.metadata = createMetadata tl staff →
      truthy staff = false → r.status = "succeeded" →
      matchesStaff "Unknown" r = true) := by
  refine ⟨⟨by simp [createMetadata], by simp [createMetadata]⟩, ?_, ?_, ?_⟩
  · intro h
    match hs : staff with
    | none => rfl
    | some s =>
      have : s = "" := by
        by_contra hc
        simp [truthy, hc] at h
      simp [createMetadata, orDefault, this]
  · intro h
    match ht : tl with
    | none => rfl
    | some t =>
      have : t = "" := by
        by_contra hc
        simp [truthy, hc] at h
      simp [createMetadata, orDefault, this]
  · intro r hm hstaff hstatus
    have hsn : r.metadata.staff_name = some "Unknown" := by
      rw [hm]
      match hs : staff with
      | none => rfl
      | some s =>
        have : s = "" := by
          by_contra hc
          simp [truthy, hc] at hstaff
        simp [createMetadata, orDefault, this]
    simp [matchesStaff, hstatus, hsn]

/-- Witness for C9 with both creation fields omitted. -/
theorem c9_metadata_defaults_witness :
    (createMetadata none none).staff_name = some "Unknown" ∧
    (createMetadata none none).terminal_label = some "" ∧
    matchesStaff "Unknown"
      ⟨"pi_4", 100, "eur", "succeeded", 5, createMetadata none none, none⟩ =
      true :=
  ⟨(c9_metadata_defaults none none).2.1 rfl,
   (c9_metadata_defaults none none).2.2.1 rfl,
   (c9_metadata_defaults none none).2.2.2
     ⟨"pi_4", 100, "eur", "succeeded", 5, createMetadata none none, none⟩
     rfl rfl rfl⟩

/-- C2 counterexample: a record whose terminal_label metadata equals the
request terminal_label but whose staff_name differs would match under the
prioritized policy the claim describes (terminalLabel strategy first), yet
the deployed handler excludes it and returns the empty summary: the claimed
priority order is not what the code implements. -/
theorem c2_counterexample :
    specPolicyMatches
      ⟨some "Register-1", some "Alice", none⟩
      ⟨"pi_c2", 1000, "eur", "succeeded", 500,
        ⟨some "Register-1", some "Bob"⟩, none⟩ = true ∧
    transactionsForTerminal
      [⟨"pi_c2", 1000, "eur", "succeeded", 500,
        ⟨some "Register-1", some "Bob"⟩, none⟩]
      ⟨some 0, some 1000000, some "Alice", some "Register-1"⟩ =
      .ok ⟨0, "eur", 0, []⟩ :=
  ⟨rfl, rfl⟩

/-- C2 amended: the deployed handler implements a single matching strategy,
exact staff_name equality gated on status succeeded; the request
terminal_label is ignored entirely (changing it never changes the
response). The terminalLabel strategy exists only in the part_002 variant,
whose filter never consults the staff field. -/
theorem c2_staff_only_matching :
    (∀ (db : List PaymentIntent) (req : ReportRequest) (tl : Option String),
      transactionsForTerminal db { req with terminal_label := tl } =
        transactionsForTerminal db req) ∧
    (∀ (db : List PaymentIntent) (startMs endMs : Int) (staff : String)
        (tl : Option String) (s : Summary), staff ≠ "" →
      transactionsForTerminal db ⟨some startMs, some endMs, some staff, tl⟩ =
        .ok s →
      ∀ r, r ∈ s.transactions ↔
        (r ∈ stripeList db
            { gte := startMs.fdiv 1000, lte := endMs.fdiv 1000 } 500 ∧
          r.status = "succeeded" ∧ r.metadata.staff_name = some staff)) ∧
    (∀ (tl : Option String) (r : PaymentIntent) (x : Option String),
      part002Matches tl r =
        part002Matches tl { r with metadata := ⟨r.metadata.terminal_label, x⟩ }) := by
  refine ⟨?_, ?_, ?_⟩
  · intro db req tl
    cases req
    rfl
  · intro db startMs endMs staff tl s hstaff h
    intro r
    obtain ⟨a, b, st, ha, hb, hst, _, hs⟩ :=
      transactionsForTerminal_ok db ⟨some startMs, some endMs, some staff, tl⟩ s h
    simp only [Option.some.injEq] at ha hb hst
    subst ha hb hst
    subst hs
    simp [summarize, List.mem_filter, matchesStaff, and_assoc]
  · intro tl r x
    unfold part002Matches
    rfl

/-- Witness for C2 amended at a concrete ledger, request and record. -/
theorem c2_staff_only_matching_witness :
    (⟨"pi_c2w", 300, "eur", "succeeded", 100, ⟨none, some "Bob"⟩, none⟩ ∈
        (Summary.mk 300 "eur" 1
          [⟨"pi_c2w", 300, "eur", "succeeded", 100, ⟨none, some "Bob"⟩, none⟩]).transactions ↔
      (⟨"pi_c2w", 300, "eur", "succeeded", 100, ⟨none, some "Bob"⟩, none⟩ ∈
          stripeList
            [⟨"pi_c2w", 300, "eur", "succeeded", 100, ⟨none, some "Bob"⟩, none⟩]
            { gte := (0 : Int).fdiv 1000, lte := (1000000 : Int).fdiv 1000 } 500 ∧
        (PaymentIntent.mk "pi_c2w" 300 "eur" "succeeded" 100
            ⟨none, some "Bob"⟩ none).status = "succeeded" ∧
        (PaymentIntent.mk "pi_c2w" 300 "eur" "succeeded" 100
            ⟨none, some "Bob"⟩ none).metadata.staff_name = some "Bob")) :=
  c2_staff_only_matching.2.1
    [⟨"pi_c2w", 300, "eur", "succeeded", 100, ⟨none, some "Bob"⟩, none⟩]
    0 1000000 "Bob" none
    (Summary.mk 300 "eur" 1
      [⟨"pi_c2w", 300, "eur", "succeeded", 100, ⟨none, some "Bob"⟩, none⟩])
    (by decide) rfl
    ⟨"pi_c2w", 300, "eur", "succeeded", 100, ⟨none, some "Bob"⟩, none⟩

/-- C3 counterexample: a request with a valid window and no identity
selector is rejected with the 400 validation error by both the current
handler and the part_002 variant, instead of aggregating every succeeded
record as the claim states. -/
theorem c3_counterexample :
    transactionsForTerminal [] ⟨some 0, some 1000000, none, none⟩ =
      .error (.validation "Missing start, end, or staff_name") ∧
    transactionsForTerminal002 [] ⟨some 0, some 1000000, none, none⟩ =
      .error (.validation "Missing start, end, or terminal_id or terminal_label") :=
  ⟨rfl, rfl⟩

/-- C3 amended: a reporting request with a valid window but no identity
selector is rejected: the current handler requires staff_name. The
all-succeeded fallback exists only in the part_002 variant and only when
terminal_id is supplied while terminal_label is absent, in which case every
succeeded record on the page matches. -/
theorem c3_no_selector_rejected :
    (∀ (db : List PaymentIntent) (startMs endMs : Int) (tl : Option String),
      transactionsForTerminal db ⟨some startMs, some endMs, none, tl⟩ =
        .error (.validation "Missing start, end, or staff_name")) ∧
    (∀ (db : List PaymentIntent) (startMs endMs : Int) (tid : String),
      tid ≠ "" →
      transactionsForTerminal002 db ⟨some startMs, some endMs, some tid, none⟩ =
        .ok (summarize
          ((stripeList db
              { gte := startMs.fdiv 1000, lte := endMs.fdiv 1000 } 500).filter
            (fun r => r.status == "succeeded")))) := by
  constructor
  · intro db startMs endMs tl
    rfl
  · intro db startMs endMs tid htid
    unfold transactionsForTerminal002
    have ht : truthy (some tid) = true := by
      simp [truthy, htid]
    simp only [ht, Bool.not_true, Bool.false_and, Bool.false_eq_true,
      if_false, ite_false]
    rfl

/-- Witness for C3 amended with a concrete terminal_id-only request. -/
theorem c3_no_selector_rejected_witness :
    transactionsForTerminal002
      [⟨"pi_c3", 400, "eur", "succeeded", 100, ⟨none, none⟩, none⟩]
      ⟨some 0, some 1000000, some "tmr_123", none⟩ =
      .ok (summarize
        ((stripeList
            [⟨"pi_c3", 400, "eur", "succeeded", 100, ⟨none, none⟩, none⟩]
            { gte := (0 : Int).fdiv 1000, lte := (1000000 : Int).fdiv 1000 }
            500).filter
          (fun r => r.status == "succeeded"))) :=
  c3_no_selector_rejected.2
    [⟨"pi_c3", 400, "eur", "succeeded", 100, ⟨none, none⟩, none⟩]
    0 1000000 "tmr_123" (by decide)

theorem filter_inverted_empty (l : List PaymentIntent) (c : CreatedFilter)
    (h : c.lte < c.gte) : l.filter (inCreatedRange c) = [] := by
  induction l with
  | nil => rfl
  | cons a t ih =>
    have hfalse : inCreatedRange c a = false := by
      unfold inCreatedRange
      by_contra hc
      have := (Bool.and_eq_true _ _).mp (Bool.of_not_eq_false hc)
      have h1 := of_decide_eq_true this.1
      have h2 := of_decide_eq_true this.2
      omega
    simp [List.filter_cons, hfalse, ih]

/-- C4 counterexample: a request whose window is inverted after conversion
is not rejected: the handler issues the list call and returns the empty
aggregate with HTTP 200, not a validation error. -/
theorem c4_counterexample :
    (1000 : Int) < (2000000 : Int).fdiv 1000 ∧
    (1000000 : Int).fdiv 1000 = (1000 : Int) ∧
    transactionsForTerminal
      [⟨"pi_c4", 700, "eur", "succeeded", 1500, ⟨none, some "A"⟩, none⟩]
      ⟨some 2000000, some 1000000, some "A", none⟩ =
      .ok ⟨0, "eur", 0, []⟩ :=
  ⟨by decide, by decide, rfl⟩

/-- C4 amended: the handler performs no inverted-range check: when start
exceeds end after floor-division conversion, the request still proceeds to
the ledger list call and succeeds with the aggregate of the empty page,
total 0, fallback currency eur, count 0 and no transactions. -/
theorem c4_no_inverted_range_check (db : List PaymentIntent)
    (startMs endMs : Int) (staff : String) (tl : Option String)
    (hstaff : staff ≠ "") (hinv : endMs.fdiv 1000 < startMs.fdiv 1000) :
    transactionsForTerminal db ⟨some startMs, some endMs, some staff, tl⟩ =
      .ok ⟨0, "eur", 0, []⟩ := by
  unfold transactionsForTerminal
  simp only [hstaff, if_false, ite_false]
  rw [show stripeList db
      { gte := startMs.fdiv 1000, lte := endMs.fdiv 1000 } 500 = [] from ?_]
  · rfl
  · unfold stripeList
    rw [filter_inverted_empty db _ hinv]
    rfl

/-- Witness for C4 amended at a concrete inverted window. -/
theorem c4_no_inverted_range_check_witness :
    transactionsForTerminal
      [⟨"pi_c4w", 900, "eur", "succeeded", 3, ⟨none, some "B"⟩, none⟩]
      ⟨some 5000, some 1000, some "B", none⟩ =
      .ok ⟨0, "eur", 0, []⟩ :=
  c4_no_inverted_range_check
    [⟨"pi_c4w", 900, "eur", "succeeded", 3, ⟨none, some "B"⟩, none⟩]
    5000 1000 "B" none (by decide) (by decide)

theorem reportTotal_replicate (n : Nat) (r : PaymentIntent) :
    reportTotal (List.replicate n r) = n * r.amount := by
  rw [reportTotal_eq_sum, List.map_replicate, List.sum_replicate, smul_eq_mul]

/-- C5 counterexample: with 501 identical succeeded in-window records of
amount 1 in the ledger, the single list call returns the full page of 500,
the handler responds with total 500 and count 500 even though the matching
set sums to 501, and the response object has no truncated key: the full
page is returned as a silent partial total. -/
theorem c5_counterexample :
    transactionsForTerminal
      (List.replicate 501
        ⟨"pi_c5", 1, "eur", "succeeded", 500, ⟨none, some "A"⟩, none⟩)
      ⟨some 0, some 1000000, some "A", none⟩ =
      .ok ⟨500, "eur", 500,
        List.replicate 500
          ⟨"pi_c5", 1, "eur", "succeeded", 500, ⟨none, some "A"⟩, none⟩⟩ ∧
    reportTotal
      ((List.replicate 501
          ⟨"pi_c5", 1, "eur", "succeeded", 500, ⟨none, some "A"⟩, none⟩).filter
        (matchesStaff "A")) = 501 ∧
    "truncated" ∉ summaryFields := by
  refine ⟨?_, ?_, by decide⟩
  · unfold transactionsForTerminal
    simp only [ite_false]
    rw [show stripeList
        (List.replicate 501
          ⟨"pi_c5", 1, "eur", "succeeded", 500, ⟨none, some "A"⟩, none⟩)
        { gte := (0 : Int).fdiv 1000, lte := (1000000 : Int).fdiv 1000 } 500 =
        List.replicate 500
          ⟨"pi_c5", 1, "eur", "succeeded", 500, ⟨none, some "A"⟩, none⟩ from ?_]
    · rw [List.filter_replicate_of_pos (by decide)]
      show Except.ok (summarize _) = _
      unfold summarize
      rw [reportTotal_replicate]
      norm_num [currencyOrFallback, List.head?_replicate]
    · unfold stripeList
      rw [List.filter_replicate_of_pos (by decide), List.take_replicate]
      norm_num
  · rw [List.filter_replicate_of_pos (by decide), reportTotal_replicate]
    norm_num

/-- C5 amended: the handler issues exactly one list call capped at 500 and
returns that page unannotated: once 500 in-window records exist in the
ledger, any further ledger records leave the response unchanged, and the
response object carries no truncated key. A full page is silently partial:
neither further pages nor a warning flag exist. -/
theorem c5_silent_truncation (db extra : List PaymentIntent)
    (startMs endMs : Int) (staff : String) (tl : Option String)
    (hfull : 500 ≤
      ((db.filter (inCreatedRange
        { gte := startMs.fdiv 1000, lte := endMs.fdiv 1000 })).length)) :
    transactionsForTerminal (db ++ extra)
        ⟨some startMs, some endMs, some staff, tl⟩ =
      transactionsForTerminal db ⟨some startMs, some endMs, some staff, tl⟩ ∧
    "truncated" ∉ summaryFields := by
  refine ⟨?_, by decide⟩
  unfold transactionsForTerminal
  by_cases hstaff : staff = ""
  · simp [hstaff]
  · simp only [hstaff, if_false, ite_false]
    rw [show stripeList (db ++ extra)
        { gte := startMs.fdiv 1000, lte := endMs.fdiv 1000 } 500 =
        stripeList db
        { gte := startMs.fdiv 1000, lte := endMs.fdiv 1000 } 500 from ?_]
    unfold stripeList
    rw [List.filter_append, List.take_append_of_le_length hfull]

/-- Witness for C5 amended: a 500-record in-window ledger plus one more
record, showing the extra record cannot affect the response. -/
theorem c5_silent_truncation_witness :
    transactionsForTerminal
        (List.replicate 500
            ⟨"pi_c5w", 2, "eur", "succeeded", 600, ⟨none, some "C"⟩, none⟩ ++
          [⟨"pi_c5x", 9, "usd", "succeeded", 700, ⟨none, some "C"⟩, none⟩])
        ⟨some 0, some 1000000, some "C", none⟩ =
      transactionsForTerminal
        (List.replicate 500
          ⟨"pi_c5w", 2, "eur", "succeeded", 600, ⟨none, some "C"⟩, none⟩)
        ⟨some 0, some 1000000, some "C", none⟩ ∧
    "truncated" ∉ summaryFields :=
  c5_silent_truncation
    (List.replicate 500
      ⟨"pi_c5w", 2, "eur", "succeeded", 600, ⟨none, some "C"⟩, none⟩)
    [⟨"pi_c5x", 9, "usd", "succeeded", 700, ⟨none, some "C"⟩, none⟩]
    0 1000000 "C" none
    (by rw [List.filter_replicate_of_pos (by decide), List.length_replicate])

/-- C10: the aggregation enforces no single currency across the matching
set: two succeeded records attributed to the requested staff whose
currencies differ are both summed into one total, and the response currency
is taken solely from the first of them, mixing minor units of two
currencies in one figure. -/
theorem c10_mixed_currency_total (r1 r2 : PaymentIntent)
    (startMs endMs : Int) (staff : String) (tl : Option String)
    (hstaff : staff ≠ "")
    (h1s : r1.status = "succeeded") (h2s : r2.status = "succeeded")
    (h1n : r1.metadata.staff_name = some staff)
    (h2n : r2.metadata.staff_name = some staff)
    (h1a : startMs.fdiv 1000 ≤ r1.created) (h1b : r1.created ≤ endMs.fdiv 1000)
    (h2a : startMs.fdiv 1000 ≤ r2.created) (h2b : r2.created ≤ endMs.fdiv 1000)
    (_hcur : r1.currency ≠ r2.currency) (hcur1 : r1.currency ≠ "") :
    transactionsForTerminal [r1, r2]
        ⟨some startMs, some endMs, some staff, tl⟩ =
      .ok ⟨r1.amount + r2.amount, r1.currency, 2, [r1, r2]⟩ := by
  unfold transactionsForTerminal
  simp only [hstaff, if_false, ite_false]
  have hin1 : inCreatedRange
      { gte := startMs.fdiv 1000, lte := endMs.fdiv 1000 } r1 = true := by
    simp [inCreatedRange]
    exact ⟨h1a, h1b⟩
  have hin2 : inCreatedRange
      { gte := startMs.fdiv 1000, lte := endMs.fdiv 1000 } r2 = true := by
    simp [inCreatedRange]
    exact ⟨h2a, h2b⟩
  have hm1 : matchesStaff staff r1 = true := by
    simp [matchesStaff, h1s, h1n]
  have hm2 : matchesStaff staff r2 = true := by
    simp [matchesStaff, h2s, h2n]
  rw [show stripeList [r1, r2]
      { gte := startMs.fdiv 1000, lte := endMs.fdiv 1000 } 500 = [r1, r2] by
    unfold stripeList
    rw [List.filter_cons_of_pos hin1, List.filter_cons_of_pos hin2]
    rfl]
  rw [List.filter_cons_of_pos hm1, List.filter_cons_of_pos hm2]
  unfold summarize reportTotal currencyOrFallback
  simp [hcur1, Nat.add_comm]

/-- Witness for C10: one eur record and one usd record in the window, both
succeeded and attributed to the same staff name; the summary adds 250 eur
cents and 4000 usd cents into the single figure 4250 labelled eur. -/
theorem c10_mixed_currency_total_witness :
    transactionsForTerminal
      [⟨"pi_ca", 250, "eur", "succeeded", 10, ⟨none, some "D"⟩, none⟩,
       ⟨"pi_cb", 4000, "usd", "succeeded", 20, ⟨none, some "D"⟩, none⟩]
      ⟨some 0, some 1000000, some "D", none⟩ =
      .ok ⟨250 + 4000, "eur", 2,
        [⟨"pi_ca", 250, "eur", "succeeded", 10, ⟨none, some "D"⟩, none⟩,
         ⟨"pi_cb", 4000, "usd", "succeeded", 20, ⟨none, some "D"⟩, none⟩]⟩ :=
  c10_mixed_currency_total
    ⟨"pi_ca", 250, "eur", "succeeded", 10, ⟨none, some "D"⟩, none⟩
    ⟨"pi_cb", 4000, "usd", "succeeded", 20, ⟨none, some "D"⟩, none⟩
    0 1000000 "D" none (by decide) rfl rfl rfl rfl
    (by decide) (by decide) (by decide) (by decide) (by decide) (by decide)
